import Mathlib

/-!
Shallow embedding of the JPEG codec wrapper in
`src/crates/kornia-io/src/jpeg.rs` (fork of kornia-rs).

The wrapper delegates actual compression and decompression to the external
`turbojpeg` library, and uses the `Image`/`ImageSize` value types of the
`kornia-image` crate.  The `turbojpeg` library is external to the repository
and the `kornia-image` crate is part of the repository but not among the
reviewed sources, so both are modelled: `turbojpeg` operations as opaque
oracle functions carried inside the `Decompressor`/`Compressor` handles, and
the image model from the specification's data-model section.

Rust `Result<T, E>` is embedded as `Except E T`.  A Rust panic (the
`.lock().unwrap()` calls, and the panicking `Default` constructors) is
embedded as `Option.none` on an `Option`-valued result: `none` is an
aborted call that returns nothing to the caller.
-/

namespace KorniaJpeg

namespace turbojpeg

/-- Opaque error value reported by the native turbojpeg library
(`turbojpeg::Error`).  The wrapper never inspects it, so it is modelled as a
bare payload. -/
structure Error where
  code : Nat
deriving DecidableEq, Repr

/-- Pixel formats of the native library; the wrapper only ever uses
interleaved RGB (`turbojpeg::PixelFormat::RGB`). -/
inductive PixelFormat where
  | RGB
deriving DecidableEq, Repr

/-- The native image descriptor `turbojpeg::Image`: a pixel buffer together
with width, row pitch (bytes per row), height and pixel format.  Bytes are
modelled as `Nat` values; no arithmetic is ever performed on them by the
wrapper. -/
structure Image where
  pixels : List Nat
  width : Nat
  pitch : Nat
  height : Nat
  format : PixelFormat
deriving DecidableEq, Repr

/-- The header information returned by the native
`turbojpeg::Decompressor::read_header` (only the fields the wrapper uses). -/
structure DecompressHeader where
  width : Nat
  height : Nat
deriving DecidableEq, Repr

/-- The native decompression handle (`turbojpeg::Decompressor`), modelled as
the pair of opaque operations the wrapper invokes on it.  `decompress`
writes into the caller-supplied pixel slice in place; since a Rust slice has
a fixed length, the filled buffer it produces necessarily has the same
length as the buffer handed in, which the subtype records. -/
structure Decompressor where
  readHeaderNative : List Nat → Except Error DecompressHeader
  decompressNative : (jpegData : List Nat) → (img : Image) →
    Except Error { out : List Nat // out.length = img.pixels.length }

/-- The native compression handle (`turbojpeg::Compressor`), modelled as the
pair of opaque operations the wrapper invokes on it: `compress_to_vec` and
`set_quality`. -/
structure Compressor where
  compressNative : Image → Except Error (List Nat)
  setQualityNative : Int → Except Error Unit

end turbojpeg

/-- Image dimensions (`kornia_image::ImageSize`). -/
structure ImageSize where
  width : Nat
  height : Nat
deriving DecidableEq, Repr

/-- Modelled from the spec: the error type of the `kornia-image` crate
(`kornia_image::ImageError`, not among the reviewed sources), raised by the
validating image factory on a buffer/size mismatch.  Opaque payload. -/
structure ImageError where
  code : Nat
deriving DecidableEq, Repr

/-- Modelled from the spec: the backing storage of an image, as a list of
memory regions.  The spec's glossary defines a contiguous buffer as "a
single unbroken memory region with no gaps"; a storage is contiguous for a
given byte count exactly when it is one region of that length. -/
structure Storage where
  regions : List (List Nat)
deriving DecidableEq, Repr

/-- All bytes of the storage, in order. -/
def Storage.bytes (s : Storage) : List Nat :=
  s.regions.flatten

/-- Whether the storage is a single unbroken region of exactly `len` bytes
(the spec's contiguity requirement for the encode path). -/
def Storage.isContiguous (s : Storage) (len : Nat) : Bool :=
  match s.regions with
  | [r] => r.length == len
  | _ => false

/-- Modelled from the spec: the image value type `kornia_image::Image<u8, 3>`
(not among the reviewed sources): an owned pixel buffer plus its `ImageSize`
and a fixed channel count of 3 (interleaved RGB, no row padding). -/
structure Image where
  size : ImageSize
  storage : Storage
deriving DecidableEq, Repr

/-- Width accessor, as used by the wrapper (`image.width()`). -/
def Image.width (i : Image) : Nat :=
  i.size.width

/-- Height accessor, as used by the wrapper (`image.height()`). -/
def Image.height (i : Image) : Nat :=
  i.size.height

/-- Channel count: fixed at 3 by the type `Image<u8, 3>`. -/
def Image.num_channels (_ : Image) : Nat :=
  3

/-- The image's pixel bytes as a slice (`image.as_slice()`). -/
def Image.as_slice (i : Image) : List Nat :=
  i.storage.bytes

/-- Modelled from the spec: the validating factory
`kornia_image::Image::new` — "Constructed only through a validating factory;
rejects mismatched buffer sizes" (buffer length must equal
width × height × channels, channels = 3).  The accepted buffer is owned as
one unbroken region. -/
def Image.new (size : ImageSize) (data : List Nat) : Except ImageError Image :=
  if data.length = size.width * size.height * 3 then
    Except.ok { size := size, storage := { regions := [data] } }
  else
    Except.error { code := 0 }

/-- The error enum `JpegError` of src/crates/kornia-io/src/jpeg.rs, lines
7-20: a wrapped native turbojpeg error, the non-contiguous-data error, and a
wrapped image-construction error. -/
inductive JpegError where
  | TurboJpegError (e : turbojpeg.Error)
  | ImageDataNotContiguous
  | ImageCreationError (e : ImageError)
deriving DecidableEq, Repr

/-- Models a `.lock().unwrap()` call on the `Mutex` guarding a codec
handle: if the mutex is poisoned (a prior panic unwound while a thread held
the lock), `lock()` returns `Err(PoisonError)` and `unwrap()` panics, which
the `Option` renders as `none`; otherwise the guarded value is obtained. -/
def lockUnwrap {α : Type} (poisoned : Bool) (a : α) : Option α :=
  if poisoned then none else some a

/-- The JPEG decoder of jpeg.rs lines 22-26: it owns the native
decompression handle behind `Arc<Mutex<...>>`.  The model keeps the handle
and the poisoned-state of its mutex. -/
structure ImageDecoder where
  decompressor : turbojpeg.Decompressor
  poisoned : Bool

/-- The JPEG encoder of jpeg.rs lines 28-32: it owns the native compression
handle behind `Arc<Mutex<...>>`. -/
structure ImageEncoder where
  compressor : turbojpeg.Compressor
  poisoned : Bool

/-- The fallible constructor `ImageDecoder::new` (jpeg.rs lines 113-118):
the outcome of `turbojpeg::Decompressor::new()` is the `native` argument;
its failure is converted by `?` through `#[from]` into
`JpegError::TurboJpegError` and returned.  A fresh mutex is not poisoned. -/
def ImageDecoder.new (native : Except turbojpeg.Error turbojpeg.Decompressor) :
    Except JpegError ImageDecoder :=
  match native with
  | Except.error e => Except.error (JpegError.TurboJpegError e)
  | Except.ok decompressor =>
      Except.ok { decompressor := decompressor, poisoned := false }

/-- The fallible constructor `ImageEncoder::new` (jpeg.rs lines 63-68). -/
def ImageEncoder.new (native : Except turbojpeg.Error turbojpeg.Compressor) :
    Except JpegError ImageEncoder :=
  match native with
  | Except.error e => Except.error (JpegError.TurboJpegError e)
  | Except.ok compressor =>
      Except.ok { compressor := compressor, poisoned := false }

/-- The `Default` impl for `ImageDecoder` (jpeg.rs lines 34-41): it calls
`Self::new()` and panics on failure (`none`). -/
def ImageDecoder.default (native : Except turbojpeg.Error turbojpeg.Decompressor) :
    Option ImageDecoder :=
  match ImageDecoder.new native with
  | Except.ok decoder => some decoder
  | Except.error _ => none

/-- The `Default` impl for `ImageEncoder` (jpeg.rs lines 43-50). -/
def ImageEncoder.default (native : Except turbojpeg.Error turbojpeg.Compressor) :
    Option ImageEncoder :=
  match ImageEncoder.new native with
  | Except.ok encoder => some encoder
  | Except.error _ => none

/-- The transient native image descriptor that `ImageEncoder::encode` builds
over the caller's pixel data (jpeg.rs lines 84-90): the image's slice,
width, pitch `3 * width`, height, interleaved RGB. -/
def encodeBuf (image : Image) : turbojpeg.Image :=
  { pixels := image.as_slice
    width := image.width
    pitch := 3 * image.width
    height := image.height
    format := turbojpeg.PixelFormat.RGB }

/-- `ImageEncoder::encode` (jpeg.rs lines 79-94): takes the image's data
slice, builds the native descriptor, then locks the compressor (panicking if
poisoned) and runs `compress_to_vec`, converting a native failure through
`#[from]` into `JpegError::TurboJpegError`. -/
def ImageEncoder.encode (self : ImageEncoder) (image : Image) :
    Option (Except JpegError (List Nat)) :=
  let buf := encodeBuf image
  (lockUnwrap self.poisoned self.compressor).map fun compressor =>
    match compressor.compressNative buf with
    | Except.error e => Except.error (JpegError.TurboJpegError e)
    | Except.ok v => Except.ok v

/-- `ImageEncoder::set_quality` (jpeg.rs lines 101-103): locks the
compressor (panicking if poisoned) and passes the quality value straight to
the native `set_quality`, converting its failure into
`JpegError::TurboJpegError`. -/
def ImageEncoder.set_quality (self : ImageEncoder) (quality : Int) :
    Option (Except JpegError Unit) :=
  (lockUnwrap self.poisoned self.compressor).map fun compressor =>
    match compressor.setQualityNative quality with
    | Except.error e => Except.error (JpegError.TurboJpegError e)
    | Except.ok _ => Except.ok ()

/-- `ImageDecoder::read_header` (jpeg.rs lines 133-141): locks the
decompressor (panicking if poisoned), reads the header natively, and on
success repackages width and height as an `ImageSize`. -/
def ImageDecoder.read_header (self : ImageDecoder) (jpegData : List Nat) :
    Option (Except JpegError ImageSize) :=
  (lockUnwrap self.poisoned self.decompressor).map fun decompressor =>
    match decompressor.readHeaderNative jpegData with
    | Except.error e => Except.error (JpegError.TurboJpegError e)
    | Except.ok header =>
        Except.ok { width := header.width, height := header.height }

/-- `ImageDecoder::decode` (jpeg.rs lines 152-175): (1) `read_header` via
`self` (its panic and its error both propagate); (2) allocate
`vec![0u8; height * width * 3]`; (3) build the native descriptor over that
buffer (width, pitch `3 * width`, height, RGB) and run the native
`decompress` into it under the lock; (4) `Image::new(image_size, pixels)?`,
converting an `ImageError` into `JpegError::ImageCreationError`. -/
def ImageDecoder.decode (self : ImageDecoder) (jpegData : List Nat) :
    Option (Except JpegError Image) :=
  match self.read_header jpegData with
  | none => none
  | some (Except.error e) => some (Except.error e)
  | some (Except.ok imageSize) =>
      let pixels := List.replicate (imageSize.height * imageSize.width * 3) 0
      let buf : turbojpeg.Image :=
        { pixels := pixels
          width := imageSize.width
          pitch := 3 * imageSize.width
          height := imageSize.height
          format := turbojpeg.PixelFormat.RGB }
      match lockUnwrap self.poisoned self.decompressor with
      | none => none
      | some decompressor =>
          match decompressor.decompressNative jpegData buf with
          | Except.error e => some (Except.error (JpegError.TurboJpegError e))
          | Except.ok out =>
              match Image.new imageSize out.val with
              | Except.error e => some (Except.error (JpegError.ImageCreationError e))
              | Except.ok img => some (Except.ok img)

/-- The decode algorithm as the specification words it (spec section 4.2),
for comparison with the source embedding: (1) call `read_header` to obtain
the `ImageSize`; (2) allocate a zero-initialized pixel buffer of size
`width * height * 3` bytes; (3) invoke the native decompression routine
directly into that buffer, interleaved RGB, row pitch `3 * width`; (4) wrap
the filled buffer and the size into an `Image`, propagating any
buffer-size-mismatch error; an error in any step is returned immediately. -/
def decodeSpec (self : ImageDecoder) (jpegData : List Nat) :
    Option (Except JpegError Image) :=
  (self.read_header jpegData).bind fun step1 =>
    match step1 with
    | Except.error e => some (Except.error e)
    | Except.ok sz =>
        let buffer := List.replicate (sz.width * sz.height * 3) 0
        (lockUnwrap self.poisoned self.decompressor).bind fun decompressor =>
          match decompressor.decompressNative jpegData
              { pixels := buffer
                width := sz.width
                pitch := 3 * sz.width
                height := sz.height
                format := turbojpeg.PixelFormat.RGB } with
          | Except.error e => some (Except.error (JpegError.TurboJpegError e))
          | Except.ok filled =>
              match Image.new sz filled.val with
              | Except.error e => some (Except.error (JpegError.ImageCreationError e))
              | Except.ok img => some (Except.ok img)

/-! Concrete fixtures used to instantiate the theorems below. -/

/-- A native decompressor whose header reports a 2×1 image and whose
decompress fills the supplied buffer with its initial contents. -/
def okDecompressor : turbojpeg.Decompressor :=
  { readHeaderNative := fun _ => Except.ok { width := 2, height := 1 }
    decompressNative := fun _ img => Except.ok ⟨img.pixels, rfl⟩ }

/-- A decoder over `okDecompressor` with a healthy mutex. -/
def okDecoder : ImageDecoder :=
  { decompressor := okDecompressor, poisoned := false }

/-- The image `okDecoder` produces on any input: 2×1, six zero bytes. -/
def imgOk : Image :=
  { size := { width := 2, height := 1 }
    storage := { regions := [List.replicate 6 0] } }

/-- A native decompressor that fails every operation with the error `e`. -/
def failDecompressor (e : turbojpeg.Error) : turbojpeg.Decompressor :=
  { readHeaderNative := fun _ => Except.error e
    decompressNative := fun _ _ => Except.error e }

/-- A native compressor that fails every operation with the error `e`. -/
def failCompressor (e : turbojpeg.Error) : turbojpeg.Compressor :=
  { compressNative := fun _ => Except.error e
    setQualityNative := fun _ => Except.error e }

/-- A 1×2 image whose backing storage is split in two 3-byte regions, hence
not contiguous in the sense of the spec's glossary. -/
def ncImage : Image :=
  { size := { width := 1, height := 2 }
    storage := { regions := [[1, 2, 3], [4, 5, 6]] } }

/-- An encoder whose native compressor succeeds and returns `[9]`. -/
def ncEncoder : ImageEncoder :=
  { compressor :=
      { compressNative := fun _ => Except.ok [9]
        setQualityNative := fun _ => Except.ok () }
    poisoned := false }

/-- An encoder whose native compressor accepts images but rejects every
quality value with error code 7. -/
def qualFailEncoder : ImageEncoder :=
  { compressor :=
      { compressNative := fun _ => Except.ok []
        setQualityNative := fun _ => Except.error { code := 7 } }
    poisoned := false }

/-- A 2×1 contiguous image, the round-trip input. -/
def image0 : Image :=
  { size := { width := 2, height := 1 }
    storage := { regions := [[10, 20, 30, 40, 50, 60]] } }

/-- An encoder whose native compressor emits the byte sequence `[77, 1]`. -/
def enc0 : ImageEncoder :=
  { compressor :=
      { compressNative := fun _ => Except.ok [77, 1]
        setQualityNative := fun _ => Except.ok () }
    poisoned := false }

/-! Inversion helpers shared by the claim proofs. -/

/-- If `read_header` returned a size, the mutex was healthy and the native
header-read reported exactly that size. -/
lemma read_header_ok_inv (self : ImageDecoder) (jpegData : List Nat)
    (sz : ImageSize) (h : self.read_header jpegData = some (Except.ok sz)) :
    self.poisoned = false ∧
      self.decompressor.readHeaderNative jpegData =
        Except.ok { width := sz.width, height := sz.height } := by
  rw [ImageDecoder.read_header, lockUnwrap] at h
  cases hp : self.poisoned with
  | true => rw [hp] at h; simp at h
  | false =>
    rw [hp] at h
    simp only [Bool.false_eq_true, if_false, Option.map_some'] at h
    refine ⟨rfl, ?_⟩
    cases hn : self.decompressor.readHeaderNative jpegData with
    | error e => rw [hn] at h; simp at h
    | ok hdr =>
      rw [hn] at h
      simp only [Option.some.injEq, Except.ok.injEq] at h
      rw [← h]

/-- Every run of `decode` either aborts on a poisoned lock, or returns a
wrapped native error, or returns the image built over the natively filled
buffer, whose length agrees with the header dimensions. -/
lemma decode_cases (self : ImageDecoder) (jpegData : List Nat) :
    self.decode jpegData = none ∨
    (∃ e, self.decode jpegData =
      some (Except.error (JpegError.TurboJpegError e))) ∨
    (∃ sz out, self.read_header jpegData = some (Except.ok sz) ∧
      List.length out = sz.width * sz.height * 3 ∧
      self.decode jpegData =
        some (Except.ok { size := sz, storage := { regions := [out] } })) := by
  obtain ⟨dcmp, p⟩ := self
  cases p with
  | true => exact Or.inl rfl
  | false =>
    cases hn : dcmp.readHeaderNative jpegData with
    | error e =>
      refine Or.inr (Or.inl ⟨e, ?_⟩)
      simp [ImageDecoder.decode, ImageDecoder.read_header, lockUnwrap, hn]
    | ok hdr =>
      cases hd : dcmp.decompressNative jpegData
          { pixels := List.replicate (hdr.height * hdr.width * 3) 0
            width := hdr.width
            pitch := 3 * hdr.width
            height := hdr.height
            format := turbojpeg.PixelFormat.RGB } with
      | error e =>
        refine Or.inr (Or.inl ⟨e, ?_⟩)
        simp [ImageDecoder.decode, ImageDecoder.read_header, lockUnwrap, hn, hd]
      | ok out =>
        have hlen : out.val.length = hdr.width * hdr.height * 3 := by
          rw [out.property]
          simp only [List.length_replicate]
          ring
        refine Or.inr (Or.inr
          ⟨{ width := hdr.width, height := hdr.height }, out.val, ?_, ?_, ?_⟩)
        · simp [ImageDecoder.read_header, lockUnwrap, hn]
        · exact hlen
        · simp [ImageDecoder.decode, ImageDecoder.read_header, lockUnwrap,
            hn, hd, Image.new, hlen]

/-- If `decode` returned an image, `read_header` on the same bytes returns
exactly that image's size. -/
lemma decode_ok_read_header (self : ImageDecoder) (jpegData : List Nat)
    (img : Image) (h : self.decode jpegData = some (Except.ok img)) :
    self.read_header jpegData = some (Except.ok img.size) := by
  rcases decode_cases self jpegData with hc | ⟨e, hc⟩ | ⟨sz, out, hrh, hlen, hc⟩
  · rw [h] at hc; cases hc
  · rw [h] at hc; simp at hc
  · rw [h] at hc
    simp only [Option.some.injEq, Except.ok.injEq] at hc
    rw [hc]
    exact hrh

/-! Claim theorems. -/

/-- C1 (counterexample): `ncImage`'s backing storage is not contiguous
(two regions instead of one unbroken region of `height * pitch` bytes), yet
`encode` does not fail with `ImageDataNotContiguous`: it invokes the native
compression routine and returns its output `[9]`.  This refutes the claim
that encoding a non-contiguous image fails with `NonContiguousImageError`
without invoking the native encoder. -/
theorem encode_noncontiguous_not_rejected :
    ncImage.storage.isContiguous (ncImage.height * (3 * ncImage.width)) = false ∧
    ncEncoder.encode ncImage = some (Except.ok [9]) :=
  ⟨rfl, rfl⟩

/-- C1 (amended): `ImageEncoder::encode` performs no contiguity check at
all: for every image, contiguous or not, it never returns
`ImageDataNotContiguous`, and whenever the native compression routine
succeeds on the descriptor built over the image's bytes, `encode` returns
exactly that native output — the native encoder is always invoked. -/
theorem encode_no_contiguity_check (self : ImageEncoder) (image : Image)
    (h : self.poisoned = false) :
    self.encode image ≠ some (Except.error JpegError.ImageDataNotContiguous) ∧
    ∀ v, self.compressor.compressNative (encodeBuf image) = Except.ok v →
      self.encode image = some (Except.ok v) := by
  constructor
  · rw [ImageEncoder.encode, lockUnwrap, h]
    simp only [Bool.false_eq_true, if_false, Option.map_some']
    intro hcontra
    cases hc : self.compressor.compressNative (encodeBuf image) with
    | error e => rw [hc] at hcontra; simp at hcontra
    | ok v => rw [hc] at hcontra; simp at hcontra
  · intro v hv
    rw [ImageEncoder.encode, lockUnwrap, h]
    simp only [Bool.false_eq_true, if_false, Option.map_some']
    rw [hv]

/-- C1 (witness): the amended theorem applied to the concrete encoder
`ncEncoder` and the non-contiguous image `ncImage`. -/
theorem encode_no_contiguity_check_witness :
    ncEncoder.compressor.compressNative (encodeBuf ncImage) = Except.ok [9] ∧
    ncEncoder.encode ncImage = some (Except.ok [9]) :=
  ⟨rfl, (encode_no_contiguity_check ncEncoder ncImage rfl).2 [9] rfl⟩

/-- C2 (counterexample): a codec-initialization failure (construct) and a
rejected quality value (set_quality) surface as the very same error value
`JpegError.TurboJpegError { code := 7 }`, so "resource unavailable" and
"invalid configuration" failures are not distinct error values. -/
theorem error_kinds_not_distinct :
    ImageDecoder.new (Except.error { code := 7 }) =
      Except.error (JpegError.TurboJpegError { code := 7 }) ∧
    qualFailEncoder.set_quality 50 =
      some (Except.error (JpegError.TurboJpegError { code := 7 })) :=
  ⟨rfl, rfl⟩

/-- C2 (amended): every native-library failure — from construct,
read_header, decode, encode, or set_quality — is wrapped in the single
variant `JpegError.TurboJpegError`; callers can distinguish the three
declared variants (`TurboJpegError`, `ImageDataNotContiguous`,
`ImageCreationError`) but not which of the five operations, or which of the
spec's five native failure kinds, produced a `TurboJpegError`. -/
theorem native_failures_single_variant (e : turbojpeg.Error)
    (jpegData : List Nat) (image : Image) (q : Int) :
    ImageDecoder.new (Except.error e) =
      Except.error (JpegError.TurboJpegError e) ∧
    ImageEncoder.new (Except.error e) =
      Except.error (JpegError.TurboJpegError e) ∧
    ({ decompressor := failDecompressor e, poisoned := false } :
        ImageDecoder).read_header jpegData =
      some (Except.error (JpegError.TurboJpegError e)) ∧
    ({ decompressor := failDecompressor e, poisoned := false } :
        ImageDecoder).decode jpegData =
      some (Except.error (JpegError.TurboJpegError e)) ∧
    ({ compressor := failCompressor e, poisoned := false } :
        ImageEncoder).encode image =
      some (Except.error (JpegError.TurboJpegError e)) ∧
    ({ compressor := failCompressor e, poisoned := false } :
        ImageEncoder).set_quality q =
      some (Except.error (JpegError.TurboJpegError e)) :=
  ⟨rfl, rfl, rfl, rfl, rfl, rfl⟩

/-- C7: a fallible-constructor failure is returned to the caller as the
recoverable error value `JpegError.TurboJpegError e` (the codec-init kind),
for both components; the abort-on-failure policy lives only in the
`Default` convenience wrappers, which panic (`none`) exactly where the core
constructors returned an error value. -/
theorem constructor_failure_recoverable (e : turbojpeg.Error) :
    ImageDecoder.new (Except.error e) =
      Except.error (JpegError.TurboJpegError e) ∧
    ImageEncoder.new (Except.error e) =
      Except.error (JpegError.TurboJpegError e) ∧
    ImageDecoder.default (Except.error e) = none ∧
    ImageEncoder.default (Except.error e) = none :=
  ⟨rfl, rfl, rfl, rfl⟩

/-- C8: when the mutex guarding a codec handle is poisoned, every operation
that must acquire it — read_header, decode, encode, set_quality — aborts
fatally (`none`) instead of proceeding with the native resource. -/
theorem poisoned_lock_fatal (dec : turbojpeg.Decompressor)
    (comp : turbojpeg.Compressor) (jpegData : List Nat) (image : Image)
    (q : Int) :
    ({ decompressor := dec, poisoned := true } : ImageDecoder).read_header
        jpegData = none ∧
    ({ decompressor := dec, poisoned := true } : ImageDecoder).decode
        jpegData = none ∧
    ({ compressor := comp, poisoned := true } : ImageEncoder).encode
        image = none ∧
    ({ compressor := comp, poisoned := true } : ImageEncoder).set_quality
        q = none :=
  ⟨rfl, rfl, rfl, rfl⟩

/-- C3: whenever `decode` succeeds, the image it returns has exactly the
width and height that `read_header` reports on the same byte sequence. -/
theorem decode_size_matches_read_header (self : ImageDecoder)
    (jpegData : List Nat) (img : Image)
    (h : self.decode jpegData = some (Except.ok img)) :
    self.read_header jpegData = some (Except.ok img.size) :=
  decode_ok_read_header self jpegData img h

/-- C3 (witness): the fixture decoder decodes `[]` to the 2×1 image
`imgOk`, and `read_header` reports that same size. -/
theorem decode_size_matches_read_header_witness :
    okDecoder.decode [] = some (Except.ok imgOk) ∧
    okDecoder.read_header [] = some (Except.ok imgOk.size) :=
  ⟨rfl, decode_size_matches_read_header okDecoder [] imgOk rfl⟩

/-- C4: `decode` coincides, on every decoder state and every input, with
the four-step algorithm the spec describes (`decodeSpec`): read the header,
allocate a zero-initialized `width * height * 3` buffer, decompress into it
natively with RGB format and pitch `3 * width`, and wrap buffer and size
into an `Image`, every failure returned immediately. -/
theorem decode_follows_spec_algorithm (self : ImageDecoder)
    (jpegData : List Nat) :
    self.decode jpegData = decodeSpec self jpegData := by
  rw [ImageDecoder.decode, decodeSpec]
  cases hrh : self.read_header jpegData with
  | none => rfl
  | some r =>
    cases r with
    | error e => rfl
    | ok sz =>
      dsimp only
      rw [Nat.mul_comm sz.height sz.width]
      cases lockUnwrap self.poisoned self.decompressor with
      | none => rfl
      | some dcmp =>
        simp only [Option.some_bind]
        cases hd : dcmp.decompressNative jpegData
            { pixels := List.replicate (sz.width * sz.height * 3) 0
              width := sz.width
              pitch := 3 * sz.width
              height := sz.height
              format := turbojpeg.PixelFormat.RGB } with
        | error e => rfl
        | ok out => rfl

/-- C5: dimensions are invariant under an encode-then-decode round trip:
if `encode` produced `bytes` from `image`, the native header of `bytes`
reports `image`'s dimensions (the codec library records dimensions in the
JPEG header), and `decode bytes` succeeds, then the decoded image has the
same width, height and channel count as the original. -/
theorem roundtrip_preserves_dims (enc : ImageEncoder) (dec : ImageDecoder)
    (image : Image) (bytes : List Nat) (decoded : Image)
    (henc : enc.encode image = some (Except.ok bytes))
    (hhdr : dec.decompressor.readHeaderNative bytes =
      Except.ok { width := image.width, height := image.height })
    (hdec : dec.decode bytes = some (Except.ok decoded)) :
    decoded.width = image.width ∧ decoded.height = image.height ∧
      decoded.num_channels = image.num_channels := by
  have hrh := decode_ok_read_header dec bytes decoded hdec
  obtain ⟨hp, hn⟩ := read_header_ok_inv dec bytes decoded.size hrh
  rw [hhdr] at hn
  injection hn with hn
  have hw := congrArg turbojpeg.DecompressHeader.width hn
  have hh := congrArg turbojpeg.DecompressHeader.height hn
  exact ⟨hw.symm, hh.symm, rfl⟩

/-- C5 (witness): round trip of the 2×1 image `image0` through the fixture
encoder and decoder keeps width 2, height 1 and 3 channels. -/
theorem roundtrip_preserves_dims_witness :
    enc0.encode image0 = some (Except.ok [77, 1]) ∧
    okDecoder.decompressor.readHeaderNative [77, 1] =
      Except.ok { width := image0.width, height := image0.height } ∧
    okDecoder.decode [77, 1] = some (Except.ok imgOk) ∧
    (imgOk.width = image0.width ∧ imgOk.height = image0.height ∧
      imgOk.num_channels = image0.num_channels) :=
  ⟨rfl, rfl, rfl,
    roundtrip_preserves_dims enc0 okDecoder image0 [77, 1] imgOk rfl rfl rfl⟩

/-- C6: on input the native codec rejects — at the header stage (the
zero-length or truncated case) or at the decompression stage — `decode`
returns the wrapped native error immediately: no panic (`none`) and no
`Image` carrying a partially filled buffer. -/
theorem invalid_input_fails_cleanly (dcmp : turbojpeg.Decompressor)
    (jpegData : List Nat) :
    (∀ e, dcmp.readHeaderNative jpegData = Except.error e →
      ({ decompressor := dcmp, poisoned := false } : ImageDecoder).decode
          jpegData =
        some (Except.error (JpegError.TurboJpegError e))) ∧
    (∀ hdr e, dcmp.readHeaderNative jpegData = Except.ok hdr →
      dcmp.decompressNative jpegData
        { pixels := List.replicate (hdr.height * hdr.width * 3) 0
          width := hdr.width
          pitch := 3 * hdr.width
          height := hdr.height
          format := turbojpeg.PixelFormat.RGB } = Except.error e →
      ({ decompressor := dcmp, poisoned := false } : ImageDecoder).decode
          jpegData =
        some (Except.error (JpegError.TurboJpegError e))) := by
  constructor
  · intro e he
    simp [ImageDecoder.decode, ImageDecoder.read_header, lockUnwrap, he]
  · intro hdr e h1 h2
    simp [ImageDecoder.decode, ImageDecoder.read_header, lockUnwrap, h1, h2]

/-- C6 (witness): on the zero-length input, a decoder whose native library
rejects the header returns the wrapped native error. -/
theorem invalid_input_fails_cleanly_witness :
    (failDecompressor { code := 3 }).readHeaderNative [] =
      Except.error { code := 3 } ∧
    ({ decompressor := failDecompressor { code := 3 }, poisoned := false } :
        ImageDecoder).decode [] =
      some (Except.error (JpegError.TurboJpegError { code := 3 })) :=
  ⟨rfl,
    (invalid_input_fails_cleanly (failDecompressor { code := 3 }) []).1
      { code := 3 } rfl⟩

/-- C10: the defensive `ImageCreationError` branch of `decode` is
unreachable — the natively filled buffer always has exactly
`width * height * 3` bytes for the header's size, since the native routine
fills the allocated slice in place — and every image `decode` returns
satisfies the buffer-length invariant. -/
theorem image_creation_error_unreachable (self : ImageDecoder)
    (jpegData : List Nat) :
    (∀ e, self.decode jpegData ≠
      some (Except.error (JpegError.ImageCreationError e))) ∧
    (∀ img, self.decode jpegData = some (Except.ok img) →
      img.as_slice.length = img.width * img.height * 3) := by
  constructor
  · intro e hcontra
    rcases decode_cases self jpegData with hc | ⟨e2, hc⟩ | ⟨sz, out, _, _, hc⟩ <;>
      rw [hcontra] at hc <;> simp at hc
  · intro img h
    rcases decode_cases self jpegData with hc | ⟨e2, hc⟩ | ⟨sz, out, hrh, hlen, hc⟩
    · rw [h] at hc; cases hc
    · rw [h] at hc; simp at hc
    · rw [h] at hc
      simp only [Option.some.injEq, Except.ok.injEq] at hc
      subst hc
      simpa [Image.as_slice, Storage.bytes, Image.width, Image.height]
        using hlen

/-- C10 (witness): the fixture decoder's decode of `[]` returns `imgOk`,
whose six-byte buffer equals its `2 * 1 * 3` invariant. -/
theorem image_creation_error_unreachable_witness :
    okDecoder.decode [] = some (Except.ok imgOk) ∧
    imgOk.as_slice.length = imgOk.width * imgOk.height * 3 :=
  ⟨rfl, (image_creation_error_unreachable okDecoder []).2 imgOk rfl⟩

end KorniaJpeg
